import Mathlib

/-!
Verification development for the code-execution judge of this repository.

The Python sources under `src/judge/judge.py`, `src/runner/harness/json_helper.py`
and `src/runner/run_tests.py` are shallowly embedded below.  JSON scalar values
are modelled by `JVal`, JSON objects by association lists, Python `float` scores
by exact rationals `ℚ` (the usual idealisation: binary rounding error is not
modelled), and the values handled by the float comparator by `PyFloat`, which
keeps NaN and signed infinity.  External processes (the special judge) are
modelled by an oracle argument giving the outcome of each invocation.

Modelling restrictions, stated once here: documents are assumed well typed in
the sense that a field read by the code carries a JSON value of the field's
natural type (the coercions `jStr`, `jNum`, ... pick the Python value on such
documents and a default otherwise, where Python would raise); the unused
`partial_scoring` configuration flag is omitted; nonfinite special-judge score
values are outside the rational score model.
-/

/-- Scalar JSON values as consumed by the judge. -/
inductive JVal where
  | jnull
  | jbool (b : Bool)
  | jnum (q : ℚ)
  | jstr (s : String)
deriving DecidableEq, Repr

/-- A JSON object (Python dict) with scalar fields, e.g. one element of
`test_results`. -/
abbrev JObj := List (String × JVal)

/-- Values appearing in a top-level harness-output document: scalars, the
`compile_result` object, or the `test_results` array. -/
inductive HVal where
  | scalar (v : JVal)
  | obj (o : JObj)
  | arr (rs : List JObj)
deriving DecidableEq, Repr

/-- A top-level harness-output document. -/
abbrev HObj := List (String × HVal)

/-- Python `d[k]` presence: first binding of the key. -/
def hGet (d : HObj) (k : String) : Option HVal := d.lookup k

/-- Python `d.get(k, default)` on a scalar-field object. -/
def jGet (o : JObj) (k : String) (d : JVal) : JVal := (o.lookup k).getD d

/-- Python `d.get(k1, d.get(k2, default))`: snake_case key, then camelCase. -/
def jGet2 (o : JObj) (k1 k2 : String) (d : JVal) : JVal :=
  (o.lookup k1).getD (jGet o k2 d)

/-- Coerce a JSON scalar to the string Python code would use (identity on
strings). -/
def jStr : JVal → String
  | .jstr s => s
  | _ => ""

/-- Coerce a JSON scalar to the number Python code would use (identity on
numbers). -/
def jNum : JVal → ℚ
  | .jnum q => q
  | _ => 0

/-- Python truthiness of a JSON scalar. -/
def jTruthy : JVal → Bool
  | .jnull => false
  | .jbool b => b
  | .jnum q => decide (q ≠ 0)
  | .jstr s => decide (s ≠ "")

/-- Python `x` as `Optional[str]`: JSON null becomes `None`. -/
def jOptStr : JVal → Option String
  | .jnull => none
  | v => some (jStr v)

/-- Python truthiness of a top-level document value. -/
def hTruthy : HVal → Bool
  | .scalar v => jTruthy v
  | .obj o => decide (o ≠ [])
  | .arr rs => decide (rs ≠ [])

/-- Extract the scalar carried by a top-level value. -/
def hScalar : HVal → JVal
  | .scalar v => v
  | _ => .jnull

/-- Extract the object carried by a top-level value. -/
def hObjOf : HVal → JObj
  | .obj o => o
  | _ => []

/-- Extract the record array carried by a top-level value. -/
def hArrOf : HVal → List JObj
  | .arr rs => rs
  | _ => []

/-- The characters Python `str.strip()` removes. -/
def isPyWs (c : Char) : Bool :=
  c = ' ' || c = '\t' || c = '\n' || c = '\r' || c = Char.ofNat 11 || c = Char.ofNat 12

/-- Remove trailing characters satisfying `p` (Python `rstrip`). -/
def listRstrip (p : Char → Bool) (cs : List Char) : List Char :=
  (cs.reverse.dropWhile p).reverse

/-- Python `s.rstrip()` for whitespace. -/
def pyRstrip (s : String) : String := String.mk (listRstrip isPyWs s.data)

/-- Python `s.lstrip()` for whitespace. -/
def pyLstrip (s : String) : String := String.mk (s.data.dropWhile isPyWs)

/-- Python `s.strip()`: both ends. -/
def pyStrip (s : String) : String := pyLstrip (pyRstrip s)

/-- Python `s.split('\n')`: the empty string yields one empty piece. -/
def splitOnNL : List Char → List (List Char)
  | [] => [[]]
  | c :: cs =>
    let r := splitOnNL cs
    if c = '\n' then [] :: r
    else
      match r with
      | [] => [[c]]
      | l :: ls => (c :: l) :: ls

/-- Python `'\n'.join(pieces)`. -/
def joinNL : List (List Char) → List Char
  | [] => []
  | [l] => l
  | l :: ls => l ++ '\n' :: joinNL ls

/-- Python `s.split()`: split on whitespace runs, dropping empty pieces. -/
def splitWsAux : List Char → List Char → List (List Char)
  | [], acc => if acc.isEmpty then [] else [acc.reverse]
  | c :: cs, acc =>
    if isPyWs c then
      if acc.isEmpty then splitWsAux cs [] else acc.reverse :: splitWsAux cs []
    else splitWsAux cs (c :: acc)

/-- Python `s.split()` on a string, producing strings. -/
def pySplit (s : String) : List String := (splitWsAux s.data []).map String.mk

/-- Python `s[:n]`. -/
def strTake (s : String) (n : ℕ) : String := String.mk (s.data.take n)

/-- `ProblemConfig` of `src/judge/judge.py` (the judge never reads the
`partial_scoring` flag, which is therefore omitted; weights are an association
list standing for the Python dict). -/
structure ProblemConfig where
  time_limit_ms : ℚ := 5000
  memory_limit_kb : ℚ := 262144
  comparison_mode : String := "exact"
  float_tolerance : ℚ := 1 / 1000000
  special_judge_path : Option String := none
  case_sensitive : Bool := true
  ignore_trailing_whitespace : Bool := true
  ignore_trailing_newlines : Bool := true
  test_weights : List (String × ℚ) := []

namespace Comparator

/-- `Comparator.normalize` of `src/judge/judge.py`: per-line trailing-whitespace
strip, trailing-newline strip, optional lower-casing, each guarded by its
config flag. -/
def normalize (text : String) (config : ProblemConfig) : String :=
  let r1 :=
    if config.ignore_trailing_whitespace then
      String.mk (joinNL ((splitOnNL text.data).map (listRstrip isPyWs)))
    else text
  let r2 :=
    if config.ignore_trailing_newlines then
      String.mk (listRstrip (fun c => c = '\n') r1.data)
    else r1
  if !config.case_sensitive then String.mk (r2.data.map Char.toLower) else r2

/-- Index of the first differing pair of lines (0-based), if any. -/
def firstDiff : List String → List String → Option ℕ
  | x :: xs, y :: ys =>
    if x = y then (firstDiff xs ys).map (· + 1) else some 0
  | _, _ => none

/-- `Comparator.exact_match` of `src/judge/judge.py`. -/
def exact_match (expected actual : String) (config : ProblemConfig) :
    Bool × String :=
  let norm_expected := normalize expected config
  let norm_actual := normalize actual config
  if norm_expected = norm_actual then (true, "Output matches expected")
  else
    let exp_lines := (splitOnNL norm_expected.data).map String.mk
    let act_lines := (splitOnNL norm_actual.data).map String.mk
    if exp_lines.length ≠ act_lines.length then
      (false, "Line count mismatch: expected " ++ toString exp_lines.length ++
        ", got " ++ toString act_lines.length)
    else
      match firstDiff exp_lines act_lines with
      | some i => (false, "Difference at line " ++ toString (i + 1))
      | none => (false, "Output differs from expected")

/-- Index and pair of the first differing tokens (0-based), if any. -/
def firstTokDiff : List String → List String → Option (ℕ × String × String)
  | x :: xs, y :: ys =>
    if x = y then (firstTokDiff xs ys).map (fun p => (p.1 + 1, p.2)) else some (0, x, y)
  | _, _ => none

/-- `Comparator.token_match` of `src/judge/judge.py`. -/
def token_match (expected actual : String) (config : ProblemConfig) :
    Bool × String :=
  let exp_tokens0 := pySplit expected
  let act_tokens0 := pySplit actual
  let exp_tokens :=
    if !config.case_sensitive then exp_tokens0.map (fun t => String.mk (t.data.map Char.toLower))
    else exp_tokens0
  let act_tokens :=
    if !config.case_sensitive then act_tokens0.map (fun t => String.mk (t.data.map Char.toLower))
    else act_tokens0
  if exp_tokens = act_tokens then (true, "All tokens match")
  else if exp_tokens.length ≠ act_tokens.length then
    (false, "Token count mismatch: expected " ++ toString exp_tokens.length ++
      ", got " ++ toString act_tokens.length)
  else
    match firstTokDiff exp_tokens act_tokens with
    | some (i, e, a) =>
      (false, "Token mismatch at position " ++ toString (i + 1) ++
        ": expected '" ++ e ++ "', got '" ++ a ++ "'")
    | none => (false, "Tokens differ")

end Comparator

/-- A Python float value as handled by the float comparator: NaN, signed
infinity, or a finite value idealised as an exact rational. -/
inductive PyFloat where
  | nan
  | inf (pos : Bool)
  | fin (q : ℚ)
deriving DecidableEq, Repr

/-- Split a numeral at the first exponent marker `e`/`E`. -/
def splitOnExp : List Char → List Char × Option (List Char)
  | [] => ([], none)
  | c :: cs =>
    if c = 'e' ∨ c = 'E' then ([], some cs)
    else
      let r := splitOnExp cs
      (c :: r.1, r.2)

/-- Value of a digit string. -/
def digitsVal (cs : List Char) : ℕ :=
  cs.foldl (fun a c => a * 10 + (c.toNat - 48)) 0

/-- Decimal part of Python `float(s)` (sign already removed): digits with an
optional fraction and an optional exponent. -/
def parseDecimal (cs : List Char) : Option ℚ :=
  let p := splitOnExp cs
  let intPart := p.1.takeWhile Char.isDigit
  let rest := p.1.drop intPart.length
  let mval : Option ℚ :=
    match rest with
    | [] => if intPart.isEmpty then none else some (digitsVal intPart)
    | '.' :: frac =>
      if frac.all Char.isDigit then
        if intPart.isEmpty ∧ frac.isEmpty then none
        else some ((digitsVal intPart : ℚ) + (digitsVal frac : ℚ) / (10 : ℚ) ^ frac.length)
      else none
    | _ => none
  match mval, p.2 with
  | some m, none => some m
  | some m, some ecs =>
    let es :=
      match ecs with
      | '+' :: r => (true, r)
      | '-' :: r => (false, r)
      | r => (true, r)
    if es.2.isEmpty ∨ ¬ es.2.all Char.isDigit then none
    else
      some (m * (10 : ℚ) ^ (if es.1 = true then (digitsVal es.2 : ℤ) else -(digitsVal es.2 : ℤ)))
  | none, _ => none

/-- Python `float(s)` on a whitespace-free token: optional sign, then
`nan` / `inf` / `infinity` (case-insensitive) or a decimal numeral. -/
def parsePyFloat (s : String) : Option PyFloat :=
  let p :=
    match s.data with
    | '+' :: r => (true, r)
    | '-' :: r => (false, r)
    | r => (true, r)
  let low := p.2.map Char.toLower
  if low = "nan".data then some .nan
  else if low = "inf".data ∨ low = "infinity".data then some (.inf p.1)
  else
    match parseDecimal p.2 with
    | some q => some (.fin (if p.1 then q else -q))
    | none => none

/-- IEEE subtraction on the idealised floats. -/
def fsub : PyFloat → PyFloat → PyFloat
  | .nan, _ => .nan
  | _, .nan => .nan
  | .inf s, .inf t => if s = t then .nan else .inf s
  | .inf s, .fin _ => .inf s
  | .fin _, .inf t => .inf (!t)
  | .fin a, .fin b => .fin (a - b)

/-- IEEE absolute value. -/
def fabs : PyFloat → PyFloat
  | .nan => .nan
  | .inf _ => .inf true
  | .fin q => .fin |q|

/-- Multiplication of a finite tolerance by an idealised float. -/
def qMul (t : ℚ) : PyFloat → PyFloat
  | .nan => .nan
  | .inf s => if 0 < t then .inf s else if t < 0 then .inf (!s) else .nan
  | .fin q => .fin (t * q)

/-- IEEE `>`: any comparison involving NaN is false. -/
def fgt : PyFloat → PyFloat → Bool
  | .nan, _ => false
  | _, .nan => false
  | .inf s, .inf t => s && !t
  | .inf s, .fin _ => s
  | .fin _, .inf t => !t
  | .fin a, .fin b => decide (b < a)

/-- First position (0-based) where the comparison
`abs(e - a) > tol and abs(e - a) > tol * abs(e)` of
`Comparator.float_match` reports a mismatch. -/
def floatMismatch (tol : ℚ) : List PyFloat → List PyFloat → Option (ℕ × PyFloat × PyFloat)
  | e :: es, a :: as_ =>
    let d := fabs (fsub e a)
    if fgt d (.fin tol) && fgt d (qMul tol (fabs e)) then some (0, e, a)
    else (floatMismatch tol es as_).map (fun p => (p.1 + 1, p.2))
  | _, _ => none

/-- Printable form of an idealised float, for diagnostic text. -/
def pfToString : PyFloat → String
  | .nan => "nan"
  | .inf true => "inf"
  | .inf false => "-inf"
  | .fin q => toString q

namespace Comparator

/-- `Comparator.float_match` of `src/judge/judge.py`: parse both texts as float
lists, compare lengths, then flag the first pair failing the combined
absolute/relative tolerance test.  NaN handling is inherited from IEEE
comparison semantics: a comparison involving NaN is false, so the mismatch
test never fires on NaN operands. -/
def float_match (expected actual : String) (config : ProblemConfig) :
    Bool × String :=
  match (pySplit expected).mapM parsePyFloat, (pySplit actual).mapM parsePyFloat with
  | some exp_values, some act_values =>
    if exp_values.length ≠ act_values.length then
      (false, "Value count mismatch: expected " ++ toString exp_values.length ++
        ", got " ++ toString act_values.length)
    else
      match floatMismatch config.float_tolerance exp_values act_values with
      | some (i, e, a) =>
        (false, "Value mismatch at position " ++ toString (i + 1) ++ ": expected " ++
          pfToString e ++ ", got " ++ pfToString a ++
          " (tolerance: " ++ toString config.float_tolerance ++ ")")
      | none => (true, "All values within tolerance")
  | _, _ => (false, "Cannot parse as float")

end Comparator

/-- Stdout of a finished special-judge process: either it parses as a JSON
object, or it is a loose string (`json.loads` raises). -/
inductive SJStdout where
  | jsonDoc (o : JObj)
  | raw (s : String)
deriving DecidableEq, Repr

/-- Outcome of one external special-judge invocation, as observed by
`SpecialJudge.run`: wall-clock timeout, another exception, or a finished
process with exit code, stdout and stderr. -/
inductive SJExec where
  | timedOut
  | exc (msg : String)
  | done (returncode : ℤ) (out : SJStdout) (stderr : String)
deriving DecidableEq, Repr

/-- The external special-judge program, abstracted as a function from its
argument vector (input, expected, actual, test id) to the invocation outcome. -/
abbrev SJOracle := String → String → String → String → SJExec

/-- Python `float(x)` applied to a JSON value, restricted to finite results.
Nonfinite string scores are outside the rational score model. -/
def jToQ : JVal → Option ℚ
  | .jnum q => some q
  | .jbool b => some (if b then 1 else 0)
  | .jstr s =>
    match parsePyFloat s with
    | some (.fin q) => some q
    | _ => none
  | .jnull => none

/-- `SpecialJudge.run` of `src/judge/judge.py` after the subprocess step:
non-zero exit is a judge error; otherwise stdout is parsed as JSON
(`verdict`/`passed`/`score`/`message`), then as a loose token, then as a bare
score; timeouts and exceptions yield `(False, 0.0, message)`. -/
def sjRun : SJExec → Bool × ℚ × String
  | .timedOut => (false, 0, "Special judge timeout")
  | .exc m => (false, 0, "Special judge error: " ++ m)
  | .done rc out stderr =>
    if rc ≠ 0 then (false, 0, "Special judge error: " ++ stderr)
    else
      match out with
      | .jsonDoc o =>
        let passed := (jGet o "verdict" (.jstr "WA") == JVal.jstr "AC") ||
          jTruthy (jGet o "passed" (.jbool false))
        match jToQ (jGet o "score" (.jnum (if passed then 1 else 0))) with
        | some score => (passed, score, jStr (jGet o "message" (.jstr "")))
        | none => (false, 0, "Special judge error: bad score value")
      | .raw s =>
        let stdout := pyStrip s
        if stdout = "1" ∨ stdout = "AC" ∨ stdout = "ACCEPTED" ∨ stdout = "true" then
          (true, 1, "Accepted by special judge")
        else if stdout = "0" ∨ stdout = "WA" ∨ stdout = "WRONG" ∨ stdout = "false" then
          (false, 0, "Rejected by special judge")
        else
          match parsePyFloat stdout with
          | some (.fin score) => (decide (0 < score), score, "Score: " ++ toString score)
          | _ => (false, 0, "Unknown special judge output: " ++ stdout)

/-- Verdict of a single test case, `TestCaseVerdict` of `src/judge/judge.py`
(`test_id` coerced to a string). -/
structure TestCaseVerdict where
  test_id : String
  verdict : String
  score : ℚ
  max_score : ℚ
  execution_time_ms : ℚ
  memory_used_kb : ℚ
  message : Option String
  expected_output : Option String
  actual_output : Option String
  input_preview : Option String
deriving DecidableEq, Repr

/-- Final judge result, `JudgeResult` of `src/judge/judge.py` (`test_verdicts`
kept as structured verdicts rather than re-serialised dicts). -/
structure JudgeResult where
  final_verdict : String
  total_score : ℚ
  max_score : ℚ
  score_percentage : ℚ
  passed_count : ℕ
  failed_count : ℕ
  total_count : ℕ
  total_time_ms : ℚ
  max_memory_kb : ℚ
  test_verdicts : List TestCaseVerdict
  compilation_status : Option String
  compilation_message : Option String
deriving DecidableEq, Repr

/-- Raw test identifier read by `judge_test_case`:
`test_result.get('test_id', test_result.get('testId', 'unknown'))`. -/
def recTestId (rec : JObj) : JVal := jGet2 rec "test_id" "testId" (.jstr "unknown")

/-- `self.config.test_weights.get(test_id, 1.0)`: a non-string id misses every
string key of the dict. -/
def weightLookup (w : List (String × ℚ)) : JVal → ℚ
  | .jstr s => (w.lookup s).getD 1
  | _ => 1

/-- Effective weight of a record under a config. -/
def caseWeight (config : ProblemConfig) (rec : JObj) : ℚ :=
  weightLookup config.test_weights (recTestId rec)

/-- Rounding half-to-even to an integer, as Python `round` on an exactly
represented value. -/
def roundHalfEven (q : ℚ) : ℤ :=
  let f := ⌊q⌋
  let r := q - f
  if r < 1 / 2 then f
  else if 1 / 2 < r then f + 1
  else if f % 2 = 0 then f else f + 1

/-- Python `round(x, 2)` on the idealised rational scores. -/
def pyRound2 (q : ℚ) : ℚ := (roundHalfEven (q * 100) : ℚ) / 100

/-- `status` field read by `judge_test_case`. -/
def recStatus (rec : JObj) : String := jStr (jGet rec "status" (.jstr ""))

/-- `actual_output` field read by `judge_test_case` (snake then camel). -/
def recActual (rec : JObj) : String :=
  jStr (jGet2 rec "actual_output" "actualOutput" (.jstr ""))

/-- `input` field read by `judge_test_case`. -/
def recInput (rec : JObj) : String := jStr (jGet rec "input" (.jstr ""))

/-- Expected output used by `judge_test_case`: the caller's argument, else the
record's own field. -/
def recExpected (rec : JObj) (expectedArg : Option String) : String :=
  match expectedArg with
  | some e => e
  | none => jStr (jGet2 rec "expected_output" "expectedOutput" (.jstr ""))

/-- The built-in comparator dispatch of `judge_test_case`: token, float, or
(default) exact. -/
def builtinCompare (config : ProblemConfig) (expected actual : String) : Bool × String :=
  if config.comparison_mode = "token" then Comparator.token_match expected actual config
  else if config.comparison_mode = "float" then Comparator.float_match expected actual config
  else Comparator.exact_match expected actual config

/-- `Judge.judge_test_case` of `src/judge/judge.py`.  Inputs: the config, the
optional special judge (an oracle standing for `self.special_judge`), one
harness test record, and the expected output passed by the caller (`None`
falls back to the record's own field).  Status classification (TLE, MLE, RE)
runs before any comparison; otherwise the special judge or the built-in
comparator selected by `comparison_mode` decides, and the score is the weight
on pass (special mode: judge score times weight). -/
def judge_test_case (config : ProblemConfig) (sj : Option SJOracle) (rec : JObj)
    (expectedArg : Option String) : TestCaseVerdict :=
  let test_id := jStr (recTestId rec)
  let status := recStatus rec
  let actual_output := recActual rec
  let exec_time := jNum (jGet2 rec "execution_time_ms" "executionTimeMs" (.jnum 0))
  let memory_kb := jNum (jGet2 rec "memory_used_kb" "memoryUsedKb" (.jnum 0))
  let input_data := recInput rec
  let expected_output := recExpected rec expectedArg
  let weight := caseWeight config rec
  let input_preview := if input_data ≠ "" then some (strTake input_data 100) else none
  if status = "timeout" ∨ jTruthy (jGet rec "timedOut" (.jbool false)) = true then
    ⟨test_id, "TLE", 0, weight, exec_time, memory_kb,
      some ("Time limit exceeded (" ++ toString exec_time ++ "ms)"),
      none, none, input_preview⟩
  else if status = "memory_limit" then
    ⟨test_id, "MLE", 0, weight, exec_time, memory_kb,
      some ("Memory limit exceeded (" ++ toString memory_kb ++ "KB)"),
      none, none, input_preview⟩
  else if status = "runtime_error" then
    ⟨test_id, "RE", 0, weight, exec_time, memory_kb,
      jOptStr (jGet rec "error" (.jstr "Unknown runtime error")),
      none, none, input_preview⟩
  else
    let r :=
      match sj, config.comparison_mode == "special" with
      | some orc, true =>
        let t := sjRun (orc input_data expected_output actual_output test_id)
        (t.1, t.2.1 * weight, t.2.2)
      | _, _ =>
        let c := builtinCompare config expected_output actual_output
        (c.1, if c.1 then weight else 0, c.2)
    ⟨test_id, if r.1 then "AC" else "WA", r.2.1, weight, exec_time, memory_kb,
      some r.2.2,
      if expected_output ≠ "" then some (strTake expected_output 500) else none,
      if actual_output ≠ "" then some (strTake actual_output 500) else none,
      input_preview⟩

/-- `harness_output.get('compile_result', harness_output.get('compileResult'))`. -/
def compileVal (d : HObj) : HVal :=
  (hGet d "compile_result").getD ((hGet d "compileResult").getD (.scalar .jnull))

/-- The CE guard of `judge_submission`: a compile result that is present,
not successful and not skipped. -/
def compileFailed (d : HObj) : Bool :=
  hTruthy (compileVal d) &&
    (!(jTruthy (jGet (hObjOf (compileVal d)) "success" (.jbool true))) &&
     !(jTruthy (jGet (hObjOf (compileVal d)) "skipped" (.jbool false))))

/-- `harness_output.get('test_results', harness_output.get('testResults', []))`. -/
def rawTestResults (d : HObj) : HVal :=
  (hGet d "test_results").getD ((hGet d "testResults").getD (.arr []))

/-- The synthetic one-element record `judge_submission` builds from a
single-run document with a `stdout` key. -/
def syntheticRecord (d : HObj) (eo : Option (List (String × String))) : JObj :=
  [("test_id", .jstr "test-1"),
   ("status", hScalar ((hGet d "status").getD (.scalar (.jstr "success")))),
   ("actual_output",
     hScalar ((hGet d "stdout").getD ((hGet d "output").getD (.scalar (.jstr ""))))),
   ("expected_output",
     .jstr (match eo with | some m => (m.lookup "test-1").getD "" | none => "")),
   ("execution_time_ms",
     hScalar ((hGet d "execution_time_ms").getD
       ((hGet d "executionTimeMs").getD (.scalar (.jnum 0))))),
   ("memory_used_kb",
     hScalar ((hGet d "memory_used_kb").getD
       ((hGet d "memoryUsedKb").getD (.scalar (.jnum 0))))),
   ("input", hScalar ((hGet d "input").getD (.scalar (.jstr "")))),
   ("error", hScalar ((hGet d "error").getD (.scalar .jnull))),
   ("timedOut", hScalar ((hGet d "timedOut").getD (.scalar (.jbool false))))]

/-- The record list `judge_submission` iterates over: the `test_results`
array, or the synthetic single-run record when that array is missing or empty
and a `stdout` key is present. -/
def judgeRecords (d : HObj) (eo : Option (List (String × String))) : List JObj :=
  let tr := rawTestResults d
  if !(hTruthy tr) && (hGet d "stdout").isSome then [syntheticRecord d eo]
  else hArrOf tr

/-- The per-record loop of `judge_submission`: look up the expected output by
test id (the positional default `test-<n+1>` uses the number of verdicts
already produced) and judge each record in order. -/
def judgeLoop (config : ProblemConfig) (sj : Option SJOracle)
    (eo : Option (List (String × String))) : List JObj → ℕ → List TestCaseVerdict
  | [], _ => []
  | rec :: rest, n =>
    let tid := jGet2 rec "test_id" "testId" (.jstr ("test-" ++ toString (n + 1)))
    let expected :=
      match eo with
      | some m => (match tid with | .jstr s => m.lookup s | _ => none)
      | none => none
    judge_test_case config sj rec expected :: judgeLoop config sj eo rest (n + 1)

/-- The final-verdict reduction of `judge_submission` over the per-case
verdict codes: all AC, else any TLE, else any MLE, else any RE, else WA. -/
def final_verdict_of (vs : List String) : String :=
  if vs.all (· == "AC") then "AC"
  else if vs.any (· == "TLE") then "TLE"
  else if vs.any (· == "MLE") then "MLE"
  else if vs.any (· == "RE") then "RE"
  else "WA"

/-- Python `max(xs, default=0)`. -/
def pyMaxD : List ℚ → ℚ
  | [] => 0
  | x :: xs => xs.foldl max x

/-- `Judge.judge_submission` of `src/judge/judge.py`: CE short-circuit on a
failed compile step, per-record judging, weighted aggregation, final-verdict
reduction and two-decimal rounding of the three score fields. -/
def judge_submission (config : ProblemConfig) (sj : Option SJOracle) (d : HObj)
    (eo : Option (List (String × String))) : JudgeResult :=
  if compileFailed d then
    ⟨"CE", 0, 0, 0, 0, 0, 0, 0, 0, [], some "failed",
      jOptStr (jGet2 (hObjOf (compileVal d)) "stderr" "error" (.jstr "Compilation failed"))⟩
  else
    let verdicts := judgeLoop config sj eo (judgeRecords d eo) 0
    let total_score := (verdicts.map (·.score)).sum
    let max_score := (verdicts.map (·.max_score)).sum
    let score_percentage := if 0 < max_score then total_score / max_score * 100 else 0
    ⟨final_verdict_of (verdicts.map (·.verdict)),
      pyRound2 total_score, pyRound2 max_score, pyRound2 score_percentage,
      verdicts.countP (·.verdict == "AC"),
      verdicts.length - verdicts.countP (·.verdict == "AC"),
      verdicts.length,
      (verdicts.map (·.execution_time_ms)).sum,
      pyMaxD (verdicts.map (·.memory_used_kb)),
      verdicts,
      if hTruthy (compileVal d) then some "success" else none,
      none⟩

/-- Exit code of `main` in `src/judge/judge.py`: 0 iff the final verdict is
AC. -/
def mainExitCode (r : JudgeResult) : ℕ := if r.final_verdict = "AC" then 0 else 1

/-- Status/passed classification of `run_single_test` in
`src/runner/harness/json_helper.py` (lines 213-241): decode and strip stdout,
classify the exit code (124/137 timeout, 139 memory limit, other non-zero
runtime error, zero passed — the spec's `timed_out`/`memory_limit`/
`runtime_error`/`success`), then compare stripped outputs and upgrade or
downgrade the status.  Returns the recorded `(status, passed)` pair. -/
def jhClassify (exit_code : ℤ) (stdout expected : String) : String × Bool :=
  let actual_output := pyStrip stdout
  let status0 :=
    if exit_code = 124 ∨ exit_code = 137 then "timeout"
    else if exit_code = 139 then "memory_limit"
    else if exit_code ≠ 0 then "runtime_error"
    else "passed"
  let passed :=
    decide ((status0 = "passed" ∨ status0 = "runtime_error") ∧
      pyStrip actual_output = pyStrip expected)
  let status :=
    if status0 = "passed" ∧ passed = false then "wrong_answer"
    else if passed then "passed" else status0
  (status, passed)

/-- The `passed` decision of `run_single_test` in `src/runner/run_tests.py`
(lines 126-137): pass only without timeout, without memory flag, with exit
code 0 and matching stripped output; a measured memory overrun clears the
flag again. -/
def rtPassed (timeoutOccurred memoryExceeded : Bool) (exitCode : ℤ)
    (stdout expected : String) (memoryKb memory_kb_limit : ℚ) : Bool :=
  let p :=
    if !timeoutOccurred ∧ !memoryExceeded ∧ exitCode = 0 then
      pyStrip stdout == pyStrip expected
    else false
  if memory_kb_limit < memoryKb then false else p


/-- The first component of `exact_match` is exactly the normalised-equality
test: every branch after the equality check returns `false`. -/
theorem exact_match_fst (expected actual : String) (config : ProblemConfig) :
    (Comparator.exact_match expected actual config).1 =
      decide (Comparator.normalize expected config = Comparator.normalize actual config) := by
  unfold Comparator.exact_match
  by_cases h : Comparator.normalize expected config = Comparator.normalize actual config
  · simp [h]
  · simp only [h, if_false, decide_eq_false h]
    split
    · rfl
    · split <;> rfl

/-- C5: for every pair of strings and every config, the exact comparator
reports a match if and only if the two normalised strings are equal, where
`Comparator.normalize` strips per-line trailing whitespace, strips trailing
newlines and folds case according to the config flags. -/
theorem exact_match_iff_normalize_eq (expected actual : String) (config : ProblemConfig) :
    (Comparator.exact_match expected actual config).1 = true ↔
      Comparator.normalize expected config = Comparator.normalize actual config := by
  rw [exact_match_fst]
  exact decide_eq_true_iff

/-- C1: over any non-empty per-case verdict sequence, the final verdict of
`judge_submission` follows the fixed precedence (all AC, else any TLE, else
any MLE, else any RE, else WA), and on every non-CE submission the
`final_verdict` field is this pure function of the per-case verdict
sequence. -/
theorem final_verdict_precedence (vs : List String) (hne : vs ≠ []) :
    ((∀ v ∈ vs, v = "AC") → final_verdict_of vs = "AC") ∧
    (¬ (∀ v ∈ vs, v = "AC") → "TLE" ∈ vs → final_verdict_of vs = "TLE") ∧
    (¬ (∀ v ∈ vs, v = "AC") → "TLE" ∉ vs → "MLE" ∈ vs → final_verdict_of vs = "MLE") ∧
    (¬ (∀ v ∈ vs, v = "AC") → "TLE" ∉ vs → "MLE" ∉ vs → "RE" ∈ vs →
      final_verdict_of vs = "RE") ∧
    (¬ (∀ v ∈ vs, v = "AC") → "TLE" ∉ vs → "MLE" ∉ vs → "RE" ∉ vs →
      final_verdict_of vs = "WA") ∧
    (∀ config sj d eo,
      (judge_submission config sj d eo).compilation_status ≠ some "failed" →
      (judge_submission config sj d eo).final_verdict =
        final_verdict_of ((judge_submission config sj d eo).test_verdicts.map (·.verdict))) := by
  have hall : (vs.all (· == "AC") = true) ↔ ∀ v ∈ vs, v = "AC" := by
    simp [List.all_eq_true]
  have hany : ∀ s : String, (vs.any (· == s) = true) ↔ s ∈ vs := by
    intro s
    rw [List.any_eq_true]
    constructor
    · rintro ⟨x, hx, hbe⟩
      have hxs : x = s := by simpa using hbe
      rw [hxs] at hx
      exact hx
    · intro hs
      exact ⟨s, hs, by simp⟩
  refine ⟨?_, ?_, ?_, ?_, ?_, ?_⟩
  · intro h
    have e1 : vs.all (· == "AC") = true := hall.mpr h
    unfold final_verdict_of
    simp only [e1]
    rfl
  · intro hna h
    have e1 : vs.all (· == "AC") = false := by
      cases hb : vs.all (· == "AC")
      · rfl
      · exact absurd (hall.mp hb) hna
    have e2 : vs.any (· == "TLE") = true := (hany "TLE").mpr h
    unfold final_verdict_of
    simp only [e1, e2]
    rfl
  · intro hna hn h
    have e1 : vs.all (· == "AC") = false := by
      cases hb : vs.all (· == "AC")
      · rfl
      · exact absurd (hall.mp hb) hna
    have e2 : vs.any (· == "TLE") = false := by
      cases hb : vs.any (· == "TLE")
      · rfl
      · exact absurd ((hany "TLE").mp hb) hn
    have e3 : vs.any (· == "MLE") = true := (hany "MLE").mpr h
    unfold final_verdict_of
    simp only [e1, e2, e3]
    rfl
  · intro hna hn1 hn2 h
    have e1 : vs.all (· == "AC") = false := by
      cases hb : vs.all (· == "AC")
      · rfl
      · exact absurd (hall.mp hb) hna
    have e2 : vs.any (· == "TLE") = false := by
      cases hb : vs.any (· == "TLE")
      · rfl
      · exact absurd ((hany "TLE").mp hb) hn1
    have e3 : vs.any (· == "MLE") = false := by
      cases hb : vs.any (· == "MLE")
      · rfl
      · exact absurd ((hany "MLE").mp hb) hn2
    have e4 : vs.any (· == "RE") = true := (hany "RE").mpr h
    unfold final_verdict_of
    simp only [e1, e2, e3, e4]
    rfl
  · intro hna hn1 hn2 hn3
    have e1 : vs.all (· == "AC") = false := by
      cases hb : vs.all (· == "AC")
      · rfl
      · exact absurd (hall.mp hb) hna
    have e2 : vs.any (· == "TLE") = false := by
      cases hb : vs.any (· == "TLE")
      · rfl
      · exact absurd ((hany "TLE").mp hb) hn1
    have e3 : vs.any (· == "MLE") = false := by
      cases hb : vs.any (· == "MLE")
      · rfl
      · exact absurd ((hany "MLE").mp hb) hn2
    have e4 : vs.any (· == "RE") = false := by
      cases hb : vs.any (· == "RE")
      · rfl
      · exact absurd ((hany "RE").mp hb) hn3
    unfold final_verdict_of
    simp only [e1, e2, e3, e4]
    rfl
  · intro config sj d eo hcs
    by_cases hc : compileFailed d
    · exfalso
      apply hcs
      unfold judge_submission
      simp only [hc]
      rfl
    · unfold judge_submission
      simp only [hc]
      rfl

/-- Witness for C1: a two-case sequence with one TLE reduces to TLE. -/
theorem final_verdict_precedence_spot : final_verdict_of ["AC", "TLE"] = "TLE" :=
  (final_verdict_precedence ["AC", "TLE"] (by decide)).2.1 (by decide) (by decide)

/-- C2: a record whose status is the harness timeout status (spelled
`timeout` in the code, the spec's `timed_out`) is classified TLE with score 0
before any comparison: the verdict does not depend on the comparison mode,
the special judge, or the expected output, only on the record and the
weight table. -/
theorem timeout_status_tle (config config' : ProblemConfig) (sj sj' : Option SJOracle)
    (rec : JObj) (eo eo' : Option String)
    (hst : recStatus rec = "timeout")
    (hw : config.test_weights = config'.test_weights) :
    (judge_test_case config sj rec eo).verdict = "TLE" ∧
    (judge_test_case config sj rec eo).score = 0 ∧
    judge_test_case config sj rec eo = judge_test_case config' sj' rec eo' := by
  refine ⟨?_, ?_, ?_⟩ <;>
    simp [judge_test_case, hst, caseWeight, hw]

/-- Record used to witness C2. -/
def recTimeout : JObj := [("status", .jstr "timeout")]

/-- Default problem configuration (all `ProblemConfig` defaults). -/
def defaultConfig : ProblemConfig :=
  ProblemConfig.mk 5000 262144 "exact" (1 / 1000000) none true true true []

/-- Token-mode configuration, otherwise default. -/
def tokenConfig : ProblemConfig :=
  ProblemConfig.mk 5000 262144 "token" (1 / 1000000) none true true true []

/-- Witness for C2: a concrete timeout record is judged TLE, identically
under two different comparison modes. -/
theorem timeout_status_tle_spot :
    (judge_test_case defaultConfig none recTimeout none).verdict = "TLE" :=
  (timeout_status_tle defaultConfig tokenConfig none none recTimeout none none rfl rfl).1

/-- C10: a harness document with an empty `test_results` array, no `stdout`
key and no failed compile step is judged AC with zero scores, an empty
verdict list, and judge exit code 0. -/
theorem empty_suite_ac (config : ProblemConfig) (sj : Option SJOracle) (d : HObj)
    (eo : Option (List (String × String)))
    (h1 : rawTestResults d = .arr [])
    (h2 : hGet d "stdout" = none)
    (h3 : compileFailed d = false) :
    (judge_submission config sj d eo).final_verdict = "AC" ∧
    (judge_submission config sj d eo).total_score = 0 ∧
    (judge_submission config sj d eo).max_score = 0 ∧
    (judge_submission config sj d eo).score_percentage = 0 ∧
    (judge_submission config sj d eo).test_verdicts = [] ∧
    mainExitCode (judge_submission config sj d eo) = 0 := by
  have hr : judgeRecords d eo = [] := by
    simp [judgeRecords, h1, h2, hTruthy, hArrOf]
  have hz : pyRound2 0 = 0 := by with_unfolding_all decide
  refine ⟨?_, ?_, ?_, ?_, ?_, ?_⟩ <;>
    simp [judge_submission, h3, hr, judgeLoop, final_verdict_of, hz, pyMaxD, mainExitCode]

/-- Witness for C10: the empty document. -/
theorem empty_suite_ac_spot :
    (judge_submission defaultConfig none [] none).final_verdict = "AC" ∧
    mainExitCode (judge_submission defaultConfig none [] none) = 0 :=
  ⟨(empty_suite_ac defaultConfig none [] none rfl rfl rfl).1,
   (empty_suite_ac defaultConfig none [] none rfl rfl rfl).2.2.2.2.2⟩

/-- Config for the C4 counterexample: one test weighted 0.001. -/
def milliConfig : ProblemConfig :=
  ProblemConfig.mk 5000 262144 "exact" (1 / 1000000) none true true true [("t1", 1 / 1000)]

/-- Document for the C4 counterexample: one successful, correct case. -/
def milliDoc : HObj :=
  [("test_results", .arr [[("test_id", .jstr "t1"), ("status", .jstr "success"),
    ("actual_output", .jstr "x"), ("expected_output", .jstr "x")]])]

set_option maxRecDepth 10000 in
/-- Counterexample to C4: with case weight 0.001 the stored `total_score` is
`round(0.001, 2) = 0`, not the per-case sum `0.001`; the stored `max_score`
is likewise 0 while `score_percentage` is 100, so the stored fields violate
both the unrounded-sum equation and the `max_score = 0 → percentage = 0`
reading. -/
theorem judge_submission_scores_cx :
    (judge_submission milliConfig none milliDoc none).total_score = 0 ∧
    ((judge_submission milliConfig none milliDoc none).test_verdicts.map (·.score)).sum
      = 1 / 1000 ∧
    (judge_submission milliConfig none milliDoc none).total_score ≠
      ((judge_submission milliConfig none milliDoc none).test_verdicts.map (·.score)).sum ∧
    (judge_submission milliConfig none milliDoc none).max_score = 0 ∧
    (judge_submission milliConfig none milliDoc none).score_percentage = 100 := by
  with_unfolding_all decide

/-- C4 as amended: the three score fields equal the two-decimal rounding
(`pyRound2`, Python `round(x, 2)`) of the per-case sums, with the zero guard
of the percentage applied to the unrounded `max_score` sum. -/
theorem judge_submission_scores (config : ProblemConfig) (sj : Option SJOracle)
    (d : HObj) (eo : Option (List (String × String))) :
    (judge_submission config sj d eo).total_score =
      pyRound2 (((judge_submission config sj d eo).test_verdicts.map (·.score)).sum) ∧
    (judge_submission config sj d eo).max_score =
      pyRound2 (((judge_submission config sj d eo).test_verdicts.map (·.max_score)).sum) ∧
    (judge_submission config sj d eo).score_percentage =
      pyRound2 (if 0 < ((judge_submission config sj d eo).test_verdicts.map (·.max_score)).sum
        then ((judge_submission config sj d eo).test_verdicts.map (·.score)).sum /
          ((judge_submission config sj d eo).test_verdicts.map (·.max_score)).sum * 100
        else 0) := by
  have hz : pyRound2 0 = 0 := by with_unfolding_all decide
  by_cases hc : compileFailed d
  · refine ⟨?_, ?_, ?_⟩ <;> simp [judge_submission, hc, hz]
  · refine ⟨?_, ?_, ?_⟩ <;> simp [judge_submission, hc]

/-- Special-mode configuration, otherwise default. -/
def specialConfig : ProblemConfig :=
  ProblemConfig.mk 5000 262144 "special" (1 / 1000000) (some "judge") true true true []

/-- A special judge whose stdout carries the score value 2. -/
def orcScore2 : SJOracle := fun _ _ _ _ => .done 0 (.jsonDoc [("score", .jnum 2)]) ""

/-- A minimal successful test record. -/
def recSuccess : JObj := [("status", .jstr "success")]

/-- Counterexample to C3: a special judge returning score 2 on a case of
weight 1 yields a `TestCaseVerdict` with `score = 2 > 1 = max_score` — the
score is multiplied by the weight without clamping. -/
theorem special_score_bound_cx :
    (judge_test_case specialConfig (some orcScore2) recSuccess none).max_score = 1 ∧
    (judge_test_case specialConfig (some orcScore2) recSuccess none).score = 2 ∧
    ¬ ((judge_test_case specialConfig (some orcScore2) recSuccess none).score ≤
       (judge_test_case specialConfig (some orcScore2) recSuccess none).max_score) := by
  with_unfolding_all decide


/-- C3 as amended: `0 ≤ score ≤ max_score = weight` holds for every judged
case whose weight is nonnegative, provided in special mode the special
judge's returned score lies in `[0, 1]`; an arbitrary special-judge score
value can violate the upper bound (see the counterexample). -/
theorem judge_test_case_score_bounds (config : ProblemConfig) (sj : Option SJOracle)
    (rec : JObj) (eo : Option String)
    (hw : 0 ≤ caseWeight config rec)
    (hsj : ∀ f, sj = some f → ∀ i e a t,
      0 ≤ (sjRun (f i e a t)).2.1 ∧ (sjRun (f i e a t)).2.1 ≤ 1) :
    0 ≤ (judge_test_case config sj rec eo).score ∧
    (judge_test_case config sj rec eo).score ≤ (judge_test_case config sj rec eo).max_score ∧
    (judge_test_case config sj rec eo).max_score = caseWeight config rec := by
  have hw' : 0 ≤ weightLookup config.test_weights (recTestId rec) := hw
  by_cases hA : recStatus rec = "timeout"
  · refine ⟨?_, ?_, ?_⟩ <;> simp [judge_test_case, hA, caseWeight, hw']
  · by_cases hB : jTruthy (jGet rec "timedOut" (.jbool false)) = true
    · refine ⟨?_, ?_, ?_⟩ <;> simp [judge_test_case, hA, hB, caseWeight, hw']
    · have hB' : jTruthy (jGet rec "timedOut" (.jbool false)) = false := by
        cases hb : jTruthy (jGet rec "timedOut" (.jbool false))
        · rfl
        · exact absurd hb hB
      by_cases h2 : recStatus rec = "memory_limit"
      · refine ⟨?_, ?_, ?_⟩ <;> simp [judge_test_case, hA, hB', h2, caseWeight, hw']
      · by_cases h3 : recStatus rec = "runtime_error"
        · refine ⟨?_, ?_, ?_⟩ <;> simp [judge_test_case, hA, hB', h2, h3, caseWeight, hw']
        · rcases sj with _ | f
          · cases hp : (builtinCompare config (recExpected rec eo) (recActual rec)).1 <;>
              · refine ⟨?_, ?_, ?_⟩ <;>
                  simp [judge_test_case, hA, hB', h2, h3, hp, caseWeight, hw']
          · cases hm : config.comparison_mode == "special"
            · cases hp : (builtinCompare config (recExpected rec eo) (recActual rec)).1 <;>
                · refine ⟨?_, ?_, ?_⟩ <;>
                    simp [judge_test_case, hA, hB', h2, h3, hm, hp, caseWeight, hw']
            · obtain ⟨hs0, hs1⟩ := hsj f rfl (recInput rec) (recExpected rec eo)
                (recActual rec) (jStr (recTestId rec))
              have hb0 : 0 ≤ (sjRun (f (recInput rec) (recExpected rec eo) (recActual rec)
                  (jStr (recTestId rec)))).2.1 *
                    weightLookup config.test_weights (recTestId rec) :=
                mul_nonneg hs0 hw'
              have hb1 : (sjRun (f (recInput rec) (recExpected rec eo) (recActual rec)
                  (jStr (recTestId rec)))).2.1 *
                    weightLookup config.test_weights (recTestId rec) ≤
                  weightLookup config.test_weights (recTestId rec) := by
                calc (sjRun (f (recInput rec) (recExpected rec eo) (recActual rec)
                        (jStr (recTestId rec)))).2.1 *
                      weightLookup config.test_weights (recTestId rec)
                    ≤ 1 * weightLookup config.test_weights (recTestId rec) :=
                      mul_le_mul_of_nonneg_right hs1 hw'
                  _ = weightLookup config.test_weights (recTestId rec) := one_mul _
              refine ⟨?_, ?_, ?_⟩ <;>
                simp [judge_test_case, hA, hB', h2, h3, hm, caseWeight, hb0, hb1]

/-- Witness for the amended C3: a default-config exact-mode case satisfies
the score bounds. -/
theorem judge_test_case_score_bounds_spot :
    0 ≤ (judge_test_case defaultConfig none recSuccess none).score ∧
    (judge_test_case defaultConfig none recSuccess none).score ≤
      (judge_test_case defaultConfig none recSuccess none).max_score :=
  ⟨(judge_test_case_score_bounds defaultConfig none recSuccess none (by decide)
      (fun f hf => Option.noConfusion hf)).1,
   (judge_test_case_score_bounds defaultConfig none recSuccess none (by decide)
      (fun f hf => Option.noConfusion hf)).2.1⟩

/-- Float-mode configuration, otherwise default. -/
def floatConfig : ProblemConfig :=
  ProblemConfig.mk 5000 262144 "float" (1 / 1000000) none true true true []

/-- A successful record whose actual output is the single token `NaN`. -/
def recNaN : JObj := [("status", .jstr "success"), ("actual_output", .jstr "NaN")]

/-- C6 (code bug): in float mode, expected `1.0` against actual `NaN` is
reported as a match and the case is judged AC, not WA as specified: the
mismatch test `abs(e - a) > tol and abs(e - a) > tol * abs(e)` is false
whenever the difference is NaN, because every IEEE comparison involving NaN
is false, so a lone NaN matches anything. -/
theorem float_match_nan_bug :
    (Comparator.float_match "1.0" "NaN" floatConfig).1 = true ∧
    (judge_test_case floatConfig none recNaN (some "1.0")).verdict = "AC" := by
  with_unfolding_all decide

/-- The special-judge failure modes named by the spec: non-zero exit or
timeout. -/
def sjFails : SJExec → Prop
  | .timedOut => True
  | .exc _ => False
  | .done rc _ _ => rc ≠ 0

/-- A failing special-judge run yields `passed = False` and score 0. -/
theorem sjRun_of_fails (x : SJExec) (h : sjFails x) :
    (sjRun x).1 = false ∧ (sjRun x).2.1 = 0 := by
  cases x with
  | timedOut => exact ⟨rfl, rfl⟩
  | exc m => exact h.elim
  | done rc out stderr =>
    have hrc : rc ≠ 0 := h
    simp [sjRun, hrc]

/-- A record that reaches the comparison stage of `judge_test_case`: no error
status and no timedOut flag. -/
abbrev recClean (rec : JObj) : Prop :=
  recStatus rec ≠ "timeout" ∧ jTruthy (jGet rec "timedOut" (.jbool false)) = false ∧
    recStatus rec ≠ "memory_limit" ∧ recStatus rec ≠ "runtime_error"

/-- The judging loop produces one verdict per record. -/
theorem judgeLoop_length (config : ProblemConfig) (sj : Option SJOracle)
    (eo : Option (List (String × String))) :
    ∀ l n, (judgeLoop config sj eo l n).length = l.length := by
  intro l
  induction l with
  | nil => intro n; rfl
  | cons r rest ih =>
    intro n
    simp [judgeLoop, ih]

/-- The final-verdict reduction never yields the reserved code IE. -/
theorem final_verdict_of_ne_ie (vs : List String) : final_verdict_of vs ≠ "IE" := by
  unfold final_verdict_of
  split_ifs <;> decide

/-- C7 as amended: when the special judge exits non-zero or times out on a
record that reaches comparison, `judge_test_case` reports score 0 with a
descriptive message, but the per-case verdict is WA (not RE as the spec's
error table says); the submission still judges every record and the failure
never escalates to a submission-wide IE. -/
theorem special_judge_failure_local (config : ProblemConfig) (orc : SJOracle)
    (hmode : config.comparison_mode = "special")
    (hfail : ∀ i e a t, sjFails (orc i e a t)) :
    (∀ rec eo, recClean rec →
      (judge_test_case config (some orc) rec eo).verdict = "WA" ∧
      (judge_test_case config (some orc) rec eo).score = 0 ∧
      (judge_test_case config (some orc) rec eo).message.isSome = true) ∧
    (∀ d eo2, compileFailed d = false →
      (judge_submission config (some orc) d eo2).test_verdicts.length =
        (judgeRecords d eo2).length) ∧
    (∀ d eo2, (judge_submission config (some orc) d eo2).final_verdict ≠ "IE") := by
  refine ⟨?_, ?_, ?_⟩
  · rintro rec eo ⟨hA, hB, h2, h3⟩
    obtain ⟨hf1, hf2⟩ := sjRun_of_fails _
      (hfail (recInput rec) (recExpected rec eo) (recActual rec) (jStr (recTestId rec)))
    have hm : (config.comparison_mode == "special") = true := by simp [hmode]
    refine ⟨?_, ?_, ?_⟩ <;>
      simp [judge_test_case, hA, hB, h2, h3, hm, hf1, hf2]
  · intro d eo2 hc
    simp [judge_submission, hc, judgeLoop_length]
  · intro d eo2
    by_cases hc : compileFailed d
    · simp [judge_submission, hc]
    · simp only [judge_submission, hc, if_false]
      exact final_verdict_of_ne_ie _

/-- A special judge that crashes (exit code 1) on every invocation. -/
def orcCrash : SJOracle := fun _ _ _ _ => .done 1 (.raw "") "boom"

/-- Counterexample to C7 as stated: a crashing special judge on a successful
record yields per-case verdict WA with score 0 — not RE. -/
theorem special_judge_failure_cx :
    (judge_test_case specialConfig (some orcCrash) recSuccess none).verdict = "WA" ∧
    (judge_test_case specialConfig (some orcCrash) recSuccess none).verdict ≠ "RE" ∧
    (judge_test_case specialConfig (some orcCrash) recSuccess none).score = 0 := by
  with_unfolding_all decide

/-- Witness for the amended C7 at a concrete crashing judge. -/
theorem special_judge_failure_local_spot :
    (judge_test_case specialConfig (some orcCrash) recSuccess none).score = 0 ∧
    (judge_submission specialConfig (some orcCrash) [] none).final_verdict ≠ "IE" :=
  ⟨((special_judge_failure_local specialConfig orcCrash rfl
      (fun i e a t => by simp [orcCrash, sjFails])).1 recSuccess none
      (by refine ⟨?_, ?_, ?_, ?_⟩ <;> decide)).2.1,
   (special_judge_failure_local specialConfig orcCrash rfl
      (fun i e a t => by simp [orcCrash, sjFails])).2.2 [] none⟩

/-- Counterexample to C8: a run exiting with code 1 whose stripped stdout
equals the stripped expected output is recorded by the json_helper harness
with the passing status (`passed`, the spec's `success`). -/
theorem harness_passed_cx :
    (jhClassify 1 "42\n" "42").1 = "passed" ∧
    (jhClassify 1 "42\n" "42").2 = true ∧ (1 : ℤ) ≠ 0 := by
  decide

/-- C8 as amended: the json_helper harness records status `passed` iff the
exit code is none of 124/137/139 and the stripped stdout equals the stripped
expected output — so a non-zero exit with matching output is upgraded to
passing; the run_tests.py harness does satisfy `passed → exit code 0`. -/
theorem harness_passed_status (e : ℤ) (stdout expected : String)
    (tmo mex : Bool) (ec : ℤ) (s2 x2 : String) (mko ml : ℚ) :
    ((jhClassify e stdout expected).1 = "passed" ↔
      (e ≠ 124 ∧ e ≠ 137 ∧ e ≠ 139 ∧ pyStrip (pyStrip stdout) = pyStrip expected)) ∧
    (rtPassed tmo mex ec s2 x2 mko ml = true → ec = 0) := by
  refine ⟨?_, ?_⟩
  · by_cases h124 : e = 124
    · simp [jhClassify, h124]
    · by_cases h137 : e = 137
      · simp [jhClassify, h137]
      · by_cases h139 : e = 139
        · simp [jhClassify, h124, h137, h139]
        · by_cases hmatch : pyStrip (pyStrip stdout) = pyStrip expected
          · by_cases h0 : e = 0
            · simp [jhClassify, h124, h137, h139, h0, hmatch]
            · simp [jhClassify, h124, h137, h139, h0, hmatch]
          · by_cases h0 : e = 0
            · simp [jhClassify, h124, h137, h139, h0, hmatch]
            · simp [jhClassify, h124, h137, h139, h0, hmatch]
  · intro h
    unfold rtPassed at h
    by_cases hml : ml < mko
    · rw [if_pos hml] at h
      exact absurd h (by simp)
    · rw [if_neg hml] at h
      by_cases hcond : ((!tmo) = true ∧ (!mex) = true ∧ ec = 0)
      · exact hcond.2.2
      · rw [if_neg hcond] at h
        exact absurd h (by simp)

/-- Witness for the amended C8: exit 0 with matching output is `passed`. -/
theorem harness_passed_status_spot : (jhClassify 0 "a" "a").1 = "passed" :=
  ((harness_passed_status 0 "a" "a" false false 0 "" "" 0 0).1).mpr (by decide)

/-- Outside special mode, `judge_test_case` never consults the special
judge. -/
theorem judge_test_case_sj_irrel (config : ProblemConfig) (sj sj' : Option SJOracle)
    (rec : JObj) (eo : Option String) (hmode : config.comparison_mode ≠ "special") :
    judge_test_case config sj rec eo = judge_test_case config sj' rec eo := by
  have hm : (config.comparison_mode == "special") = false := by simp [hmode]
  cases sj <;> cases sj' <;> simp [judge_test_case, hm]

/-- Outside special mode, the judging loop never consults the special
judge. -/
theorem judgeLoop_sj_irrel (config : ProblemConfig) (sj sj' : Option SJOracle)
    (eo : Option (List (String × String))) (hmode : config.comparison_mode ≠ "special") :
    ∀ l n, judgeLoop config sj eo l n = judgeLoop config sj' eo l n := by
  intro l
  induction l with
  | nil => intro n; rfl
  | cons r rest ih =>
    intro n
    simp only [judgeLoop]
    rw [ih, judge_test_case_sj_irrel config sj sj' r _ hmode]

/-- C9: judging is deterministic and a pure function of its declared inputs
when no external special judge is invoked: outside special mode, two runs of
`judge_submission` with any two special-judge oracles, over documents with
identical key-to-value mappings, produce identical `JudgeResult` values. -/
theorem judge_submission_deterministic (config : ProblemConfig)
    (sj sj' : Option SJOracle) (d d' : HObj) (eo : Option (List (String × String)))
    (hmode : config.comparison_mode ≠ "special")
    (hag : ∀ k, hGet d k = hGet d' k) :
    judge_submission config sj d eo = judge_submission config sj' d' eo := by
  have hcv : compileVal d = compileVal d' := by
    unfold compileVal
    rw [hag, hag]
  have hcf : compileFailed d = compileFailed d' := by
    unfold compileFailed
    rw [hcv]
  have hrt : rawTestResults d = rawTestResults d' := by
    unfold rawTestResults
    rw [hag, hag]
  have hsyn : syntheticRecord d eo = syntheticRecord d' eo := by
    unfold syntheticRecord
    simp only [hag]
  have hjr : judgeRecords d eo = judgeRecords d' eo := by
    simp only [judgeRecords, hrt, hsyn, hag]
  have hloop : ∀ l n, judgeLoop config sj eo l n = judgeLoop config sj' eo l n :=
    judgeLoop_sj_irrel config sj sj' eo hmode
  simp only [judge_submission, hcf, hcv, hjr, hloop, hag]

/-- An inert special-judge oracle, used to show oracle irrelevance. -/
def dummyOracle : SJOracle := fun _ _ _ _ => .timedOut

/-- Witness for C9: same document, one run without and one with an oracle. -/
theorem judge_submission_deterministic_spot :
    judge_submission defaultConfig none milliDoc none =
      judge_submission defaultConfig (some dummyOracle) milliDoc none :=
  judge_submission_deterministic defaultConfig none (some dummyOracle) milliDoc milliDoc
    none (by decide) (fun k => rfl)
